import Mathlib

/-!
A model of the surimi mock WebSocket server (src/lib.rs).

The server is configured by a builder (`MockServer.host`, `MockServer.port`,
`MockServer.setResponses`), bound with `MockServer.start`, and then serves
every accepted connection with `MockServer.ws_handler`: each application text
message from a peer triggers the next canned response, with the sentinel
text "No more response" once the per-connection queue is exhausted.

The operating-system socket layer and the WebSocket transport of the
async_tungstenite dependency are modelled explicitly (`StartEnv`, `autoPong`,
the `Except String` wrappers around inbound items); the handler logic itself
is a direct translation of `MockServer::ws_handler`.
-/

namespace Surimi

/-- A serde_json Value as the server uses it: `ws_handler` never inspects the
structure of a payload, it only clones it and serializes it with `to_string`
(src/lib.rs line 134), so a payload is modelled by its serialized text form. -/
structure Value where
  serialized : String
  deriving DecidableEq

/-- serde_json `to_string`, applied to a response before it is sent
(src/lib.rs line 134). -/
def Value.to_string (v : Value) : String :=
  v.serialized

/-- The async_tungstenite `Message` variants: Text, Binary, Ping, Pong,
Close (with optional close frame) and raw Frame. -/
inductive Message where
  | text (s : String)
  | binary (b : List Nat)
  | ping (p : List Nat)
  | pong (p : List Nat)
  | close (f : Option String)
  | frame
  deriving DecidableEq

/-- `MockServerOptions` (src/lib.rs lines 9-13). -/
structure MockServerOptions where
  host : String
  port : Nat
  deriving DecidableEq

/-- `MockServerOptions::default` (src/lib.rs lines 27-32): host "localhost",
port 0 (the doc comment above it in the source claims 8080, the code sets 0). -/
def MockServerOptions.default : MockServerOptions :=
  { host := "localhost", port := 0 }

/-- `MockServer` (src/lib.rs lines 77-80). -/
structure MockServer where
  responses : List Value
  options : MockServerOptions
  deriving DecidableEq

/-- `MockServer::default` (src/lib.rs lines 82-89): empty responses, default
options. -/
def MockServer.default : MockServer :=
  { responses := [], options := MockServerOptions.default }

/-- Builder method `MockServer::host` (src/lib.rs lines 92-95). -/
def MockServer.host (self : MockServer) (host : String) : MockServer :=
  { self with options := { self.options with host := host } }

/-- Builder method `MockServer::port` (src/lib.rs lines 97-100). -/
def MockServer.port (self : MockServer) (port : Nat) : MockServer :=
  { self with options := { self.options with port := port } }

/-- Builder method `MockServer::responses` (src/lib.rs lines 102-107): clones
the given list and reverses it, because the handler uses `Vec::pop` to take
the next response from the end. Named `setResponses` here because the
structure field is already called `responses`. -/
def MockServer.setResponses (self : MockServer) (responses : List Value) : MockServer :=
  { self with responses := responses.reverse }

/-- Rust `Vec::pop`: removes and returns the last element (src/lib.rs
line 133). -/
def vecPop (l : List Value) : Option (Value × List Value) :=
  match l.getLast? with
  | some a => some (a, l.dropLast)
  | none => none

/-- The body of the inner `while let` match in `MockServer::ws_handler`
(src/lib.rs lines 131-143), for one inbound application message: returns the
frames the handler sends, the updated response vector, and `true` when the
loop continues (`false` on `Message::Close`, which `break`s). Text pops the
next response or sends the sentinel; Close breaks; every other variant
(Binary, Ping, Pong, Frame) falls into the `_ => {}` arm. -/
def handleMessage (responses : List Value) (m : Message) :
    List Message × List Value × Bool :=
  match m with
  | .text _ =>
    match vecPop responses with
    | some pr => ([.text pr.1.to_string], pr.2, true)
    | none => ([.text "No more response"], responses, true)
  | .close _ => ([], responses, false)
  | _ => ([], responses, true)

/-- Modelled from the dependency: the async_tungstenite WebSocket transport
automatically answers every inbound ping with a pong carrying the same
payload, below the application match (the repository's `should_answer_pong`
test in src/lib.rs lines 198-216 attests this behavior). -/
def autoPong (m : Message) : List Message :=
  match m with
  | .ping p => [.pong p]
  | _ => []

/-- How one connection's session ends: the inbound stream ran out
(`socket.next()` returned `None`), the peer sent Close (the loop `break`s),
or a transport read error was propagated by the `?` on `message?`
(src/lib.rs line 131). -/
inductive SessionEnd where
  | streamEnded
  | closed
  | errored (e : String)
  deriving DecidableEq

/-- Whether a session ended with a propagated transport error. -/
def SessionEnd.isErr : SessionEnd → Bool
  | .errored _ => true
  | _ => false

/-- The inner `while let Some(message) = socket.next()` loop of
`MockServer::ws_handler` (src/lib.rs lines 130-144) run over one connection's
inbound items, starting from this session's private clone of the response
vector: returns all frames sent on this connection, the remaining responses,
and how the session ended. Pongs answered by the transport (`autoPong`) are
interleaved at the point the ping is read. -/
def runMessages (responses : List Value) (msgs : List (Except String Message)) :
    List Message × List Value × SessionEnd :=
  match msgs with
  | [] => ([], responses, .streamEnded)
  | .error e :: _ => ([], responses, .errored e)
  | .ok m :: rest =>
    let step := handleMessage responses m
    if step.2.2 then
      let next := runMessages step.2.1 rest
      (autoPong m ++ step.1 ++ next.1, next.2.1, next.2.2)
    else
      (autoPong m ++ step.1, step.2.1, .closed)

/-- One inbound transport connection, as `ws_handler` sees it: the result of
the WebSocket opening handshake (`accept_async`, src/lib.rs line 127) and the
stream of inbound items it yields once accepted. -/
structure Conn where
  handshake : Except String Unit
  msgs : List (Except String Message)

/-- The outer `while let Some(stream) = incoming.next()` loop of
`MockServer::ws_handler` (src/lib.rs lines 123-147), with `i` the index of
the next connection (used only to tag which connection each sent frame
belongs to). Mirrors the source exactly: a listener error (`stream?`) or a
handshake error (`accept_async(...)?`) propagates and ends the whole
handler; each accepted connection is served inline with a fresh clone of
`responses`; a session that ends in a transport error propagates that error
(`message?` / `send(...)?`), ending the handler. -/
def ws_handlerAux (responses : List Value) :
    Nat → List (Except String Conn) → List (Nat × Message) × Except String Unit
  | _, [] => ([], .ok ())
  | _, .error e :: _ => ([], .error e)
  | i, .ok c :: rest =>
    match c.handshake with
    | .error e => ([], .error e)
    | .ok _ =>
      let s := runMessages responses c.msgs
      match s.2.2 with
      | .errored e => (s.1.map (fun m => (i, m)), .error e)
      | _ =>
        let next := ws_handlerAux responses (i + 1) rest
        (s.1.map (fun m => (i, m)) ++ next.1, next.2)

/-- `MockServer::ws_handler` (src/lib.rs lines 123-147) over the whole list
of inbound connections. -/
def MockServer.ws_handler (self : MockServer) (incoming : List (Except String Conn)) :
    List (Nat × Message) × Except String Unit :=
  ws_handlerAux self.responses 0 incoming

/-- The operating-system socket layer used by `MockServer.start`: `bind host
port` is an error on bind failure (address in use, invalid address,
permission denied) and otherwise returns the port reported by
`local_addr()` for the new listener; for a requested port of 0 the OS picks
a free ephemeral port. -/
structure StartEnv where
  bind : String → Nat → Except String Nat

/-- `MockServer::start` (src/lib.rs lines 109-121): binds a listener at
{host, port}; on failure the error propagates to the caller and nothing else
happens; on success it returns `(host, actual port)` and detaches the
background task that runs `self.ws_handler` (the second component records
the spawned work: `some self` when the task was spawned, `none` when bind
failed and nothing was spawned). -/
def MockServer.start (self : MockServer) (env : StartEnv) :
    Except String (String × Nat) × Option MockServer :=
  match env.bind self.options.host self.options.port with
  | .error e => (.error e, none)
  | .ok port => (.ok (self.options.host, port), some self)

/-- Popping the last element of `l ++ [a]` yields `a` and leaves `l`. -/
theorem vecPop_concat (l : List Value) (a : Value) :
    vecPop (l ++ [a]) = some (a, l) := by
  simp [vecPop, List.getLast?_concat, List.dropLast_concat]

/-- A run of the session loop over a reversed configured list, fed only text
triggers, emits the configured payloads in configured order followed by one
sentinel per excess trigger, drains the vector, and leaves the session open
until the inbound stream ends. -/
theorem runMessages_triggers (ps : List Value) (ts : List String)
    (h : ps.length ≤ ts.length) :
    runMessages ps.reverse (ts.map fun t => .ok (.text t)) =
      (ps.map (fun v => Message.text v.to_string)
          ++ List.replicate (ts.length - ps.length) (.text "No more response"),
        [], .streamEnded) := by
  induction ps generalizing ts with
  | nil =>
    simp only [List.reverse_nil, List.map_nil, List.nil_append, Nat.sub_zero]
    induction ts with
    | nil => rfl
    | cons t ts ih =>
      simp [runMessages, handleMessage, vecPop, autoPong, ih, List.replicate_succ]
  | cons p ps ih =>
    cases ts with
    | nil => simp at h
    | cons t ts =>
      have h' : ps.length ≤ ts.length := by simpa using h
      simp [runMessages, handleMessage, autoPong, List.reverse_cons, vecPop_concat,
        ih ts h', Nat.succ_sub_succ]

/-- Claim C1: for every configured sequence of N payloads, sending N text
trigger messages on a single connection yields exactly those N payloads,
serialized to text, in the configured order; the reversal inside the
`responses` builder combined with the handler's pop-from-end is unobservable
to the caller. -/
theorem c1_ordering (s : MockServer) (ps : List Value) (ts : List String)
    (h : ts.length = ps.length) :
    (s.setResponses ps).ws_handler
        [.ok { handshake := .ok (), msgs := ts.map fun t => .ok (.text t) }] =
      (ps.map fun v => ((0 : Nat), Message.text v.to_string), .ok ()) := by
  have hses := runMessages_triggers ps ts (le_of_eq h.symm)
  simp [MockServer.ws_handler, ws_handlerAux, MockServer.setResponses, hses, h,
    Nat.sub_self, List.map_map]

/-- Concrete instance of `c1_ordering`: two configured payloads, two
triggers, replies in configured order. -/
theorem c1_ordering_witness :
    (MockServer.default.setResponses [⟨"pa"⟩, ⟨"pb"⟩]).ws_handler
        [.ok { handshake := .ok (),
               msgs := [.ok (.text "x"), .ok (.text "y")] }] =
      ([((0 : Nat), Message.text "pa"), ((0 : Nat), Message.text "pb")], .ok ()) := by
  have h := c1_ordering MockServer.default [⟨"pa"⟩, ⟨"pb"⟩] ["x", "y"] (by decide)
  simpa using h

/-- Claim C4: whenever a text trigger arrives on a connection whose private
queue is exhausted (including a server configured with no payloads at all),
the handler replies with exactly the text "No more response" and the session
stays open awaiting further triggers; every excess trigger receives the
sentinel. -/
theorem c4_exhaustion (s : MockServer) (ps : List Value) (ts : List String)
    (h : ps.length ≤ ts.length) :
    runMessages (s.setResponses ps).responses (ts.map fun t => .ok (.text t)) =
      (ps.map (fun v => Message.text v.to_string)
          ++ List.replicate (ts.length - ps.length) (.text "No more response"),
        [], .streamEnded) := by
  simpa [MockServer.setResponses] using runMessages_triggers ps ts h

/-- Concrete instance of `c4_exhaustion`: one configured payload, three
triggers, the two excess triggers each get the sentinel and the session is
still open. -/
theorem c4_exhaustion_witness :
    runMessages (MockServer.default.setResponses [⟨"pa"⟩]).responses
        [.ok (.text "x"), .ok (.text "y"), .ok (.text "z")] =
      ([Message.text "pa", .text "No more response", .text "No more response"],
        [], .streamEnded) := by
  have h := c4_exhaustion MockServer.default [⟨"pa"⟩] ["x", "y", "z"] (by decide)
  simpa using h

/-- Claim C7: an inbound ping with payload p is answered by a pong with the
same payload p, and the ping never consumes a queue entry: the rest of the
session runs on exactly the same response vector. -/
theorem c7_ping_pong (responses : List Value) (p : List Nat)
    (rest : List (Except String Message)) :
    runMessages responses (.ok (.ping p) :: rest) =
      (Message.pong p :: (runMessages responses rest).1,
        (runMessages responses rest).2.1, (runMessages responses rest).2.2) := by
  simp [runMessages, handleMessage, autoPong]

/-- Counterexample to claim C3: with one configured payload, a binary
message emits nothing and leaves the queue untouched, while a text message
pops the payload — a binary message does not advance the reply cursor the
way a text message does. -/
theorem c3_counterexample :
    runMessages [⟨"pa"⟩] [.ok (.binary [1, 2])] = ([], [⟨"pa"⟩], .streamEnded)
  ∧ runMessages [⟨"pa"⟩] [.ok (.binary [1, 2])] ≠
      runMessages [⟨"pa"⟩] [.ok (.text "x")] := by
  exact ⟨rfl, by decide⟩

/-- Claim C3 amended: only text application messages act as triggers; a
binary message is ignored by the handler's catch-all arm — it emits no
reply, consumes no queue entry, and the session continues as if the message
had not been received. -/
theorem c3_binary_ignored (responses : List Value) (b : List Nat)
    (rest : List (Except String Message)) :
    runMessages responses (.ok (.binary b) :: rest) = runMessages responses rest := by
  simp [runMessages, handleMessage, autoPong]

/-- A session run that consumed its whole inbound list while staying open
continues from its final state when the inbound list is extended. -/
theorem runMessages_append (responses : List Value)
    (xs ys : List (Except String Message))
    (h : (runMessages responses xs).2.2 = .streamEnded) :
    runMessages responses (xs ++ ys) =
      ((runMessages responses xs).1
          ++ (runMessages (runMessages responses xs).2.1 ys).1,
        (runMessages (runMessages responses xs).2.1 ys).2.1,
        (runMessages (runMessages responses xs).2.1 ys).2.2) := by
  induction xs generalizing responses with
  | nil => simp [runMessages]
  | cons x xs ih =>
    cases x with
    | error e => simp [runMessages] at h
    | ok m =>
      by_cases hc : (handleMessage responses m).2.2
      · have h' : (runMessages (handleMessage responses m).2.1 xs).2.2 = .streamEnded := by
          simpa [runMessages, hc] using h
        simp [runMessages, hc, ih _ h']
      · simp [runMessages, hc] at h

/-- Claim C8: a close frame from the peer is terminal for that session: the
loop stops there and nothing is sent after it even if more triggers follow,
and the accept loop is unaffected — the handler simply moves on to the next
connection with no error. -/
theorem c8_close_terminal (responses : List Value)
    (msgs extra : List (Except String Message))
    (h : (runMessages responses msgs).2.2 = .streamEnded) :
    runMessages responses (msgs ++ .ok (.close none) :: extra) =
      ((runMessages responses msgs).1, (runMessages responses msgs).2.1, .closed)
  ∧ ∀ (i : Nat) (rest : List (Except String Conn)),
      ws_handlerAux responses i
          (.ok { handshake := .ok (),
                 msgs := msgs ++ .ok (.close none) :: extra } :: rest) =
        ((runMessages responses msgs).1.map (fun m => (i, m))
            ++ (ws_handlerAux responses (i + 1) rest).1,
          (ws_handlerAux responses (i + 1) rest).2) := by
  have hrun : runMessages responses (msgs ++ .ok (.close none) :: extra) =
      ((runMessages responses msgs).1, (runMessages responses msgs).2.1, .closed) := by
    rw [runMessages_append responses msgs (.ok (.close none) :: extra) h]
    simp [runMessages, handleMessage, autoPong]
  refine ⟨hrun, fun i rest => ?_⟩
  simp [ws_handlerAux, hrun]

/-- Concrete instance of `c8_close_terminal`: after one served trigger and a
close frame, a further trigger produces nothing and the session ends closed. -/
theorem c8_close_terminal_witness :
    runMessages [⟨"pa"⟩]
        ([.ok (.text "t")] ++ .ok (.close none) :: [.ok (.text "u")]) =
      ([Message.text "pa"], [], .closed) := by
  have h := (c8_close_terminal [⟨"pa"⟩] [.ok (.text "t")] [.ok (.text "u")] rfl).1
  rw [h]
  rfl

/-- The frames sent on connection number t, in order of emission. -/
def outputsFor (t : Nat) (outs : List (Nat × Message)) : List Message :=
  outs.filterMap fun x => if x.1 = t then some x.2 else none

theorem outputsFor_append (t : Nat) (a b : List (Nat × Message)) :
    outputsFor t (a ++ b) = outputsFor t a ++ outputsFor t b := by
  simp [outputsFor, List.filterMap_append]

theorem outputsFor_map_eq (t : Nat) (l : List Message) :
    outputsFor t (l.map fun m => (t, m)) = l := by
  induction l with
  | nil => rfl
  | cons a l ih => simpa [outputsFor, List.filterMap_cons] using ih

theorem outputsFor_map_ne (t u : Nat) (h : u ≠ t) (l : List Message) :
    outputsFor t (l.map fun m => (u, m)) = [] := by
  induction l with
  | nil => rfl
  | cons a l _ => simp [outputsFor, List.filterMap_cons, h]

/-- Claim C6: each accepted connection is served from its own private clone
of the configured response vector, starting from the first entry: on a
server with two inbound connections, the frames sent on connection 0 are
exactly those of a session over the full configured vector, and likewise,
independently, for connection 1 — replies emitted on one connection never
advance the other connection's cursor. -/
theorem c6_isolation (self : MockServer) (c1 c2 : Conn)
    (h1 : c1.handshake = .ok ()) (h2 : c2.handshake = .ok ())
    (hne : (runMessages self.responses c1.msgs).2.2.isErr = false) :
    outputsFor 0 (self.ws_handler [.ok c1, .ok c2]).1 =
        (runMessages self.responses c1.msgs).1
  ∧ outputsFor 1 (self.ws_handler [.ok c1, .ok c2]).1 =
        (runMessages self.responses c2.msgs).1 := by
  have hexp : (self.ws_handler [.ok c1, .ok c2]).1 =
      (runMessages self.responses c1.msgs).1.map (fun m => (0, m))
        ++ (runMessages self.responses c2.msgs).1.map (fun m => (1, m)) := by
    cases hs1 : (runMessages self.responses c1.msgs).2.2 with
    | errored e => rw [hs1] at hne; simp [SessionEnd.isErr] at hne
    | streamEnded =>
      cases hs2 : (runMessages self.responses c2.msgs).2.2 with
      | errored e => simp [MockServer.ws_handler, ws_handlerAux, h1, h2, hs1, hs2]
      | streamEnded => simp [MockServer.ws_handler, ws_handlerAux, h1, h2, hs1, hs2]
      | closed => simp [MockServer.ws_handler, ws_handlerAux, h1, h2, hs1, hs2]
    | closed =>
      cases hs2 : (runMessages self.responses c2.msgs).2.2 with
      | errored e => simp [MockServer.ws_handler, ws_handlerAux, h1, h2, hs1, hs2]
      | streamEnded => simp [MockServer.ws_handler, ws_handlerAux, h1, h2, hs1, hs2]
      | closed => simp [MockServer.ws_handler, ws_handlerAux, h1, h2, hs1, hs2]
  constructor
  · rw [hexp, outputsFor_append, outputsFor_map_eq,
      outputsFor_map_ne 0 1 (by decide), List.append_nil]
  · rw [hexp, outputsFor_append, outputsFor_map_ne 1 0 (by decide),
      outputsFor_map_eq, List.nil_append]

/-- Concrete instance of `c6_isolation`: the first client consumes one of
the two configured payloads and closes; the second client nevertheless
receives the full sequence from the first entry. -/
theorem c6_isolation_witness :
    outputsFor 0
        ((MockServer.default.setResponses [⟨"pa"⟩, ⟨"pb"⟩]).ws_handler
          [.ok { handshake := .ok (),
                 msgs := [.ok (.text "a"), .ok (.close none)] },
           .ok { handshake := .ok (),
                 msgs := [.ok (.text "b"), .ok (.text "c")] }]).1 =
      (runMessages (MockServer.default.setResponses [⟨"pa"⟩, ⟨"pb"⟩]).responses
        [.ok (.text "a"), .ok (.close none)]).1
  ∧ outputsFor 1
        ((MockServer.default.setResponses [⟨"pa"⟩, ⟨"pb"⟩]).ws_handler
          [.ok { handshake := .ok (),
                 msgs := [.ok (.text "a"), .ok (.close none)] },
           .ok { handshake := .ok (),
                 msgs := [.ok (.text "b"), .ok (.text "c")] }]).1 =
      (runMessages (MockServer.default.setResponses [⟨"pa"⟩, ⟨"pb"⟩]).responses
        [.ok (.text "b"), .ok (.text "c")]).1 := by
  exact c6_isolation (MockServer.default.setResponses [⟨"pa"⟩, ⟨"pb"⟩])
    { handshake := .ok (), msgs := [.ok (.text "a"), .ok (.close none)] }
    { handshake := .ok (), msgs := [.ok (.text "b"), .ok (.text "c")] }
    rfl rfl rfl

/-- Counterexample to claim C2: a failed WebSocket handshake on the first
inbound connection is not contained — the propagated error aborts the whole
handler, so a second, healthy connection with a configured response waiting
is never served and the accept loop ends with the handshake error. -/
theorem c2_counterexample :
    (MockServer.default.setResponses [⟨"pa"⟩]).ws_handler
        [.ok { handshake := .error "bad handshake", msgs := [] },
         .ok { handshake := .ok (), msgs := [.ok (.text "t")] }] =
      ([], .error "bad handshake") := rfl

/-- Claim C2 amended: per-connection errors are not contained — a handshake
failure on one connection ends the whole handler with that error and no
later connection is accepted, and a transport read error ends that session
as errored (which likewise ends the handler); only the bind outcome ever
crosses the start-up boundary: start has already returned the bind result,
which does not depend on anything the handler does. -/
theorem c2_containment (self : MockServer) (e : String)
    (msgs : List (Except String Message)) (rest : List (Except String Conn))
    (env : StartEnv) (p : Nat)
    (hbind : env.bind self.options.host self.options.port = .ok p) :
    self.ws_handler (.ok { handshake := .error e, msgs := msgs } :: rest) =
        ([], .error e)
  ∧ runMessages self.responses (.error e :: msgs) =
        ([], self.responses, .errored e)
  ∧ self.start env = (.ok (self.options.host, p), some self) := by
  refine ⟨rfl, rfl, ?_⟩
  simp [MockServer.start, hbind]

/-- Concrete instance of `c2_containment`: the handler dies on the bad
handshake while start already reported success to the caller. -/
theorem c2_containment_witness :
    MockServer.default.ws_handler
        [.ok { handshake := .error "bad handshake", msgs := [.ok (.text "t")] }] =
        ([], .error "bad handshake")
  ∧ MockServer.default.start ⟨fun _ _ => .ok 4000⟩ =
        (.ok ("localhost", 4000), some MockServer.default) := by
  have h := c2_containment MockServer.default "bad handshake" [.ok (.text "t")] []
    ⟨fun _ _ => .ok 4000⟩ 4000 rfl
  exact ⟨h.1, h.2.2⟩

/-- Claim C5: start binds a listener at the configured host and port; on
bind failure it fails immediately with the bind error and spawns no
background work; on success it synchronously returns the resolved
(host, actual port) pair and detaches the handler task, where a configured
port of 0 is replaced by a nonzero OS-assigned ephemeral port and a nonzero
configured port is bound as requested. -/
theorem c5_start (self : MockServer) (env : StartEnv)
    (hos : ∀ h q p, env.bind h q = .ok p → (q ≠ 0 → p = q) ∧ (q = 0 → p ≠ 0)) :
    (∀ e, env.bind self.options.host self.options.port = .error e →
        self.start env = (.error e, none))
  ∧ (∀ p, env.bind self.options.host self.options.port = .ok p →
        self.start env = (.ok (self.options.host, p), some self)
          ∧ (self.options.port ≠ 0 → p = self.options.port)
          ∧ (self.options.port = 0 → p ≠ 0)) := by
  constructor
  · intro e he
    simp [MockServer.start, he]
  · intro p hp
    refine ⟨by simp [MockServer.start, hp], ?_, ?_⟩
    · exact fun hq => (hos _ _ _ hp).1 hq
    · exact fun hq => (hos _ _ _ hp).2 hq

/-- Concrete instance of `c5_start`: under an OS model that assigns
ephemeral port 54321 to a request for port 0, a default server starts at
("localhost", 54321) with the handler task spawned. -/
theorem c5_start_witness :
    MockServer.default.start ⟨fun _ q => .ok (if q = 0 then 54321 else q)⟩ =
      (.ok ("localhost", 54321), some MockServer.default) := by
  have hos : ∀ h q p,
      StartEnv.bind ⟨fun _ q => .ok (if q = 0 then 54321 else q)⟩ h q = .ok p →
        (q ≠ 0 → p = q) ∧ (q = 0 → p ≠ 0) := by
    intro h q p hp
    injection hp with hp
    constructor
    · intro hq
      rw [← hp, if_neg hq]
    · intro hq
      rw [← hp, if_pos hq]
      decide
  exact ((c5_start MockServer.default ⟨fun _ q => .ok (if q = 0 then 54321 else q)⟩
    hos).2 54321 rfl).1

/-- Counterexample to claim C9: connections are not served by independent
concurrent tasks — a transport read error in the first connection's session
aborts the whole handler, so a second connection with a trigger and a
configured response waiting is never served at all. -/
theorem c9_counterexample :
    (MockServer.default.setResponses [⟨"pa"⟩]).ws_handler
        [.ok { handshake := .ok (), msgs := [.error "connection reset"] },
         .ok { handshake := .ok (), msgs := [.ok (.text "t")] }] =
      ([], .error "connection reset") := rfl

theorem tags_map_const (i : Nat) (l : List Message) :
    (l.map fun m => (i, m)).map Prod.fst = List.replicate l.length i := by
  induction l with
  | nil => rfl
  | cons a l ih => simp [ih, List.replicate_succ]

theorem replicate_sorted (n i : Nat) : (List.replicate n i).Sorted (· ≤ ·) := by
  induction n with
  | zero => simp
  | succ n ih =>
    rw [List.replicate_succ]
    exact List.sorted_cons.mpr ⟨fun b hb => le_of_eq (List.eq_of_mem_replicate hb).symm, ih⟩

/-- Prepending one connection's frames, all tagged i, to a tail of frames
tagged at least i + 1 keeps every tag at least i and keeps the tag list
sorted. -/
theorem tags_step (i : Nat) (out : List Message) (tl : List Nat)
    (hall : ∀ t ∈ tl, i + 1 ≤ t) (hsorted : tl.Sorted (· ≤ ·)) :
    (∀ t ∈ (out.map fun m => (i, m)).map Prod.fst ++ tl, i ≤ t)
  ∧ ((out.map fun m => (i, m)).map Prod.fst ++ tl).Sorted (· ≤ ·) := by
  rw [tags_map_const]
  constructor
  · intro t ht
    rcases List.mem_append.mp ht with h | h
    · exact le_of_eq (List.eq_of_mem_replicate h).symm
    · exact Nat.le_of_succ_le (hall t h)
  · refine List.pairwise_append.mpr ⟨replicate_sorted _ _, hsorted, ?_⟩
    intro a ha b hb
    rw [List.eq_of_mem_replicate ha]
    exact Nat.le_of_succ_le (hall b hb)

/-- Unfolding of the accept loop at an accepted connection whose session
ends in a transport error: its frames are emitted and the error ends the
handler. -/
theorem ws_handlerAux_ok_err (responses : List Value) (i : Nat) (c : Conn)
    (rest : List (Except String Conn)) (hh : c.handshake = .ok ()) (e : String)
    (hs : (runMessages responses c.msgs).2.2 = .errored e) :
    ws_handlerAux responses i (.ok c :: rest) =
      ((runMessages responses c.msgs).1.map (fun m => (i, m)), .error e) := by
  simp [ws_handlerAux, hh, hs]

/-- Unfolding of the accept loop at an accepted connection whose session
ends without a transport error: its frames are emitted and the loop
continues with the remaining connections. -/
theorem ws_handlerAux_ok_cont (responses : List Value) (i : Nat) (c : Conn)
    (rest : List (Except String Conn)) (hh : c.handshake = .ok ())
    (hs : (runMessages responses c.msgs).2.2.isErr = false) :
    ws_handlerAux responses i (.ok c :: rest) =
      ((runMessages responses c.msgs).1.map (fun m => (i, m))
          ++ (ws_handlerAux responses (i + 1) rest).1,
        (ws_handlerAux responses (i + 1) rest).2) := by
  cases hs2 : (runMessages responses c.msgs).2.2 with
  | errored e => rw [hs2] at hs; simp [SessionEnd.isErr] at hs
  | streamEnded => simp [ws_handlerAux, hh, hs2]
  | closed => simp [ws_handlerAux, hh, hs2]

/-- Every frame the handler emits while serving connections i, i + 1, ... is
tagged at least i, and the tags appear in nondecreasing order. -/
theorem ws_handlerAux_tags (responses : List Value) (i : Nat)
    (conns : List (Except String Conn)) :
    (∀ t ∈ (ws_handlerAux responses i conns).1.map Prod.fst, i ≤ t)
  ∧ ((ws_handlerAux responses i conns).1.map Prod.fst).Sorted (· ≤ ·) := by
  induction conns generalizing i with
  | nil => exact ⟨by simp [ws_handlerAux], by simp [ws_handlerAux]⟩
  | cons x rest ih =>
    cases x with
    | error e => exact ⟨by simp [ws_handlerAux], by simp [ws_handlerAux]⟩
    | ok c =>
      cases hh : c.handshake with
      | error e => exact ⟨by simp [ws_handlerAux, hh], by simp [ws_handlerAux, hh]⟩
      | ok u =>
        cases u
        cases hs : (runMessages responses c.msgs).2.2 with
        | errored e =>
          rw [ws_handlerAux_ok_err responses i c rest hh e hs]
          have h := tags_step i (runMessages responses c.msgs).1 []
            (by intro t ht; cases ht) List.sorted_nil
          simpa using h
        | streamEnded =>
          rw [ws_handlerAux_ok_cont responses i c rest hh (by rw [hs]; rfl),
            List.map_append]
          exact tags_step i (runMessages responses c.msgs).1
            ((ws_handlerAux responses (i + 1) rest).1.map Prod.fst)
            (ih (i + 1)).1 (ih (i + 1)).2
        | closed =>
          rw [ws_handlerAux_ok_cont responses i c rest hh (by rw [hs]; rfl),
            List.map_append]
          exact tags_step i (runMessages responses c.msgs).1
            ((ws_handlerAux responses (i + 1) rest).1.map Prod.fst)
            (ih (i + 1)).1 (ih (i + 1)).2

/-- Claim C9 amended: the engine serves connections strictly sequentially,
inline in the accept loop, rather than spawning an independent task per
connection: the connection tags of the emitted frames are nondecreasing over
the whole run — one session's frames are never interleaved with another's,
and a connection is only ever served after every earlier connection's
session has ended (and, per `c9_counterexample`, an erroring session
prevents all later connections from being served). -/
theorem c9_sequential (self : MockServer) (incoming : List (Except String Conn)) :
    ((self.ws_handler incoming).1.map Prod.fst).Sorted (· ≤ ·) :=
  (ws_handlerAux_tags self.responses 0 incoming).2

/-- Claim C10: a default MockServer has an empty response list, host
"localhost" and port 0 (the source doc comment advertises a default port of
8080 but the code sets 0), so start always asks the OS for a port, and every
trigger on a default-configured server immediately receives the exhaustion
sentinel. -/
theorem c10_default_config (env : StartEnv) (p : Nat) (ts : List String)
    (hbind : env.bind "localhost" 0 = .ok p) :
    MockServer.default.responses = []
  ∧ MockServer.default.options.host = "localhost"
  ∧ MockServer.default.options.port = 0
  ∧ MockServer.default.start env = (.ok ("localhost", p), some MockServer.default)
  ∧ runMessages MockServer.default.responses (ts.map fun t => .ok (.text t)) =
      (List.replicate ts.length (.text "No more response"), [], .streamEnded) := by
  refine ⟨rfl, rfl, rfl, ?_, ?_⟩
  · simp [MockServer.start, MockServer.default, MockServerOptions.default, hbind]
  · have h := runMessages_triggers [] ts (by simp)
    simpa [MockServer.default] using h

/-- Concrete instance of `c10_default_config`: a default server starts on
the OS-assigned port and answers a first trigger with the sentinel. -/
theorem c10_default_config_witness :
    MockServer.default.start ⟨fun _ _ => .ok 7777⟩ =
        (.ok ("localhost", 7777), some MockServer.default)
  ∧ runMessages MockServer.default.responses [.ok (.text "x")] =
        ([.text "No more response"], [], .streamEnded) := by
  have h := c10_default_config ⟨fun _ _ => .ok 7777⟩ 7777 ["x"] rfl
  exact ⟨h.2.2.2.1, by simpa using h.2.2.2.2⟩

end Surimi
